import Mathlib

/-!
# Verification of the digital top-up backend's transaction and referral logic

Shallow embedding of the server handlers of the repository:
* `src/server/src/handlers/transactions.ts` (`createTransaction`,
  `updateTransactionStatus`, `processReferralCommission`, `calculateCommission`),
* `src/server/src/handlers/digiflazz.ts` classification helpers
  (`isDigiflazzSuccess`, `isDigiflazzPending`, `isDigiflazzFailed`),
* `src/server/src/handlers/referrals.ts` (`getUserReferrals`),
* `src/server/src/handlers/auth.ts` (`login`),
over the relational store of `src/server/src/db/schema.ts`.

Modelling conventions:
* Postgres `numeric(10,2)` money columns, and the JavaScript numbers obtained
  from them by `parseFloat`, are modelled as exact rationals `ℚ`; the
  `toString`/`parseFloat` round-trips in the handlers are identities on such
  values and are elided.  `Math.round` is `jsRound` below (round half toward
  +∞, i.e. `⌊x + 1/2⌋`), which is its behaviour on all finite arguments.
* Timestamps (`created_at`, `updated_at`, `new Date()`) are modelled as an
  abstract `Nat` clock value threaded into the operations.
* The store is a `DB` value: lists of rows plus the `serial` counters.  A
  drizzle `select().where(eq(..)).limit(1)` is `List.find?`; an
  `update().where().returning()` updates every matching row and returns them
  in table order; an `insert` appends a row with the next serial id.
* JavaScript truthiness is preserved where the handlers rely on it:
  `input.amount || price` treats a supplied `0` as absent
  (`createTransaction` line 61), `input.external_transaction_id || null`
  treats `""` as absent, and `user.referred_by_id` is truthy only for a
  non-null, non-zero id (`processReferralCommission` line 144).
* The `jsonb` provider payload is opaque; we model it as `Option String`.
* Fallible secondary effects: `processReferralCommission` swallows every
  error of its referral insert (lines 157-160).  The possibility that this
  insert throws is modelled by a boolean `fault` parameter: `fault = true`
  means the insert raised and the `catch` discarded the error, leaving the
  ledger untouched.
-/

/-- Transaction status enum (`transactionStatusEnum` in `db/schema.ts`). -/
inductive TransactionStatus
  | pending
  | processing
  | success
  | failed
  | cancelled
deriving DecidableEq, Repr

/-- Denomination type enum (`denominationTypeEnum` in `db/schema.ts`). -/
inductive DenominationType
  | fixed
  | range
deriving DecidableEq, Repr

/-- Product category enum (`productCategoryEnum` in `db/schema.ts`). -/
inductive ProductCategory
  | mobile_credit
  | data_package
  | pln_token
  | game_voucher
  | other
deriving DecidableEq, Repr

/-- A row of `usersTable`. -/
structure UserRow where
  id : Nat
  email : String
  password_hash : String
  full_name : String
  phone_number : Option String
  referral_code : String
  referred_by_id : Option Nat
  created_at : Nat
  updated_at : Nat
deriving DecidableEq, Repr

/-- A row of `productsTable`. -/
structure ProductRow where
  id : Nat
  sku : String
  name : String
  description : Option String
  category : ProductCategory
  price : ℚ
  base_price : ℚ
  provider : String
  is_active : Bool
  min_amount : Option ℚ
  max_amount : Option ℚ
  denomination_type : DenominationType
  image_url : Option String
  created_at : Nat
  updated_at : Nat
deriving DecidableEq, Repr

/-- A row of `transactionsTable`. -/
structure TransactionRow where
  id : Nat
  user_id : Nat
  product_id : Nat
  transaction_id : String
  external_transaction_id : Option String
  amount : ℚ
  price : ℚ
  status : TransactionStatus
  customer_phone : Option String
  customer_id : Option String
  customer_name : Option String
  notes : Option String
  digiflazz_response : Option String
  created_at : Nat
  updated_at : Nat
deriving DecidableEq, Repr

/-- A row of `referralsTable`.  Note that the table declares no uniqueness
constraint on `transaction_id`; only `id` (serial) is a key. -/
structure ReferralRow where
  id : Nat
  referrer_id : Nat
  referred_id : Nat
  commission_amount : ℚ
  transaction_id : Nat
  is_paid : Bool
  created_at : Nat
deriving DecidableEq, Repr

/-- The relational store: the four tables and the serial-id counters for the
tables the modelled handlers insert into. -/
structure DB where
  users : List UserRow
  products : List ProductRow
  transactions : List TransactionRow
  referrals : List ReferralRow
  nextTransactionPk : Nat
  nextReferralPk : Nat
deriving DecidableEq, Repr

/-- Model of `Math.round`: round to nearest integer, half toward +∞,
i.e. `⌊q + 1/2⌋` (written with `Rat.floor` so that it evaluates by kernel
reduction). -/
def jsRound (q : ℚ) : ℤ := (q + 1 / 2).floor

/-- Model of `calculateCommission` (`transactions.ts` lines 16-19):
`Math.round(amount * 0.05)`. -/
def calculateCommission (amount : ℚ) : ℤ := jsRound (amount * (5 / 100))

/-- Model of `db.select().from(usersTable).where(eq(usersTable.id, uid)).limit(1)`. -/
def findUser (db : DB) (uid : Nat) : Option UserRow :=
  db.users.find? (fun u => u.id == uid)

/-- Model of `db.select().from(productsTable).where(eq(productsTable.id, pid)).limit(1)`. -/
def findProduct (db : DB) (pid : Nat) : Option ProductRow :=
  db.products.find? (fun p => p.id == pid)

/-- Model of `createTransactionInputSchema` of `schema.ts`. -/
structure CreateTransactionInput where
  user_id : Nat
  product_id : Nat
  amount : Option ℚ
  customer_phone : Option String
  customer_id : Option String
  customer_name : Option String
deriving DecidableEq, Repr

/-- The errors `createTransaction` throws; the bound carried by the two
validation errors is the bound interpolated into the thrown message
(`Amount must be at least ...` / `Amount must not exceed ...`). -/
inductive TxError
  | userNotFound
  | productNotFound
  | productNotActive
  | amountBelowMin (bound : ℚ)
  | amountAboveMax (bound : ℚ)
deriving DecidableEq, Repr

/-- JavaScript `x || null` on an optional string: `""` is falsy. -/
def jsStringOrNull (o : Option String) : Option String :=
  match o with
  | some s => if s = "" then none else some s
  | none => none

/-- The range-bound validation of `createTransaction` (`transactions.ts`
lines 65-72): check the minimum, then the maximum; a non-null numeric
string is always truthy, so each check runs exactly when its bound is set.
Returns the error thrown, if any. -/
def rangeViolation (product : ProductRow) (finalAmount : ℚ) : Option TxError :=
  match product.min_amount with
  | some mn =>
    if finalAmount < mn then some (.amountBelowMin mn)
    else
      match product.max_amount with
      | some mx => if mx < finalAmount then some (.amountAboveMax mx) else none
      | none => none
  | none =>
    match product.max_amount with
    | some mx => if mx < finalAmount then some (.amountAboveMax mx) else none
    | none => none

/-- Model of `createTransaction` (`transactions.ts` lines 32-99).  `genId` is the
value produced by `generateTransactionId()` (timestamp + random suffix,
modelled as an oracle input) and `now` the insertion timestamp. -/
def createTransaction (genId : String) (now : Nat) (input : CreateTransactionInput)
    (db : DB) : Except TxError (TransactionRow × DB) :=
  match findUser db input.user_id with
  | none => .error .userNotFound
  | some _user =>
    match findProduct db input.product_id with
    | none => .error .productNotFound
    | some product =>
      if !product.is_active then .error .productNotActive
      else
        -- `input.amount || parseFloat(product[0].price)`: 0 is falsy
        let finalAmount : ℚ :=
          match input.amount with
          | some a => if a = 0 then product.price else a
          | none => product.price
        let finalPrice : ℚ := product.price
        match
          if product.denomination_type = .range then
            rangeViolation product finalAmount
          else none
        with
        | some e => .error e
        | none =>
          let row : TransactionRow :=
            { id := db.nextTransactionPk
              user_id := input.user_id
              product_id := input.product_id
              transaction_id := genId
              external_transaction_id := none
              amount := finalAmount
              price := finalPrice
              status := .pending
              customer_phone := input.customer_phone
              customer_id := input.customer_id
              customer_name := input.customer_name
              notes := none
              digiflazz_response := none
              created_at := now
              updated_at := now }
          .ok (row, { db with
                        transactions := db.transactions ++ [row]
                        nextTransactionPk := db.nextTransactionPk + 1 })

/-- Model of `updateTransactionStatusInputSchema` of `schema.ts`. -/
structure UpdateTransactionStatusInput where
  transaction_id : String
  status : TransactionStatus
  external_transaction_id : Option String
  digiflazz_response : Option String
deriving DecidableEq, Repr

/-- The `set {...}` applied by `updateTransactionStatus` to a matching row
(`transactions.ts` lines 105-111). -/
def applyStatusUpdate (input : UpdateTransactionStatusInput) (now : Nat)
    (t : TransactionRow) : TransactionRow :=
  { t with
      status := input.status
      external_transaction_id := jsStringOrNull input.external_transaction_id
      digiflazz_response := input.digiflazz_response
      updated_at := now }

/-- Model of `processReferralCommission` (`transactions.ts` lines 135-161): looks up
the buyer, and when the buyer has a (truthy) `referred_by_id` inserts one
referral row with the 5% commission; `is_paid` takes the schema default
`false`.  The whole body is wrapped in a `try`/`catch` that swallows every
error, so when the insert throws (`fault = true`) the store is returned
unchanged. -/
def processReferralCommission (fault : Bool) (now : Nat) (transactionPk : Nat)
    (userId : Nat) (amount : ℚ) (db : DB) : DB :=
  match findUser db userId with
  | some u =>
    match u.referred_by_id with
    | some rid =>
      if rid ≠ 0 then
        if fault then db
        else
          { db with
              referrals := db.referrals ++
                [{ id := db.nextReferralPk
                   referrer_id := rid
                   referred_id := userId
                   commission_amount := (calculateCommission amount : ℚ)
                   transaction_id := transactionPk
                   is_paid := false
                   created_at := now }]
              nextReferralPk := db.nextReferralPk + 1 }
      else db
    | none => db
  | none => db

/-- Model of `updateTransactionStatus` (`transactions.ts` lines 102-132): update every
row matching the external `transaction_id` string, return `null` when none
matched, otherwise run commission processing when the delivered status is
`success` and return the updated row. -/
def updateTransactionStatus (fault : Bool) (now : Nat)
    (input : UpdateTransactionStatusInput) (db : DB) :
    Option TransactionRow × DB :=
  let updatedRows :=
    (db.transactions.filter (fun t => t.transaction_id == input.transaction_id)).map
      (applyStatusUpdate input now)
  match updatedRows with
  | [] => (none, db)
  | t :: _ =>
    let db1 := { db with
                   transactions := db.transactions.map (fun r =>
                     if r.transaction_id == input.transaction_id then
                       applyStatusUpdate input now r
                     else r) }
    let db2 :=
      if input.status = .success then
        processReferralCommission fault now t.id t.user_id t.amount db1
      else db1
    (some t, db2)

/-- One entry of `getUserReferrals`'s `referred_users` result. -/
structure ReferredUserStats where
  id : Nat
  full_name : String
  email : String
  joined_date : Nat
  total_transactions : Nat
  total_spent : ℚ
deriving DecidableEq, Repr

/-- The successful transactions of a user: the rows the `LEFT JOIN ... ON
(transactions.user_id = users.id AND transactions.status = 'success')`
of `getUserReferrals` matches against a user row. -/
def successfulTransactionsOf (db : DB) (uid : Nat) : List TransactionRow :=
  db.transactions.filter (fun t => t.user_id == uid && t.status == .success)

/-- Model of `getUserReferrals` (`referrals.ts` lines 975-1023): group the left join
by user; `count(transactions.id)` counts only matched (non-null) join rows
and `COALESCE(SUM(price), 0)` sums their prices, so a referred user with no
successful transaction yields `0` / `0` rather than disappearing. -/
def getUserReferrals (db : DB) (userId : Nat) :
    List ReferredUserStats × Nat :=
  let referredUsers :=
    (db.users.filter (fun u => u.referred_by_id == some userId)).map (fun u =>
      let txs := successfulTransactionsOf db u.id
      { id := u.id
        full_name := u.full_name
        email := u.email
        joined_date := u.created_at
        total_transactions := txs.length
        total_spent := (txs.map (fun t => t.price)).sum : ReferredUserStats })
  (referredUsers, referredUsers.length)

/-- The `data` object of `digiflazzOrderResponseSchema`. -/
structure DigiflazzOrderData where
  ref_id : String
  customer_no : String
  buyer_sku_code : String
  message : String
  status : String
  rc : String
  buyer_last_saldo : ℚ
  price : ℚ
  tele : String
  wa : String
  serial_number : Option String
deriving DecidableEq, Repr

/-- Model of `digiflazzOrderResponseSchema` of `schema.ts`. -/
structure DigiflazzOrderResponse where
  data : DigiflazzOrderData
deriving DecidableEq, Repr

/-- Model of `isDigiflazzSuccess` (`digiflazz.ts` lines 859-861). -/
def isDigiflazzSuccess (response : DigiflazzOrderResponse) : Bool :=
  response.data.status == "Sukses" && response.data.rc == "00"

/-- Model of `isDigiflazzPending` (`digiflazz.ts` lines 864-868). -/
def isDigiflazzPending (response : DigiflazzOrderResponse) : Bool :=
  response.data.status == "Pending" ||
  response.data.status == "Process" ||
  response.data.message == "PROCESS"

/-- Model of `isDigiflazzFailed` (`digiflazz.ts` lines 871-875). -/
def isDigiflazzFailed (response : DigiflazzOrderResponse) : Bool :=
  response.data.status == "Gagal" ||
  response.data.message == "GAGAL" ||
  (response.data.rc != "00" && response.data.status != "Pending")

/-- Model of `loginInputSchema` of `schema.ts`. -/
structure LoginInput where
  email : String
  password : String
deriving DecidableEq, Repr

/-- The user object returned by `login` (the user row minus
`password_hash`). -/
structure AuthUser where
  id : Nat
  email : String
  full_name : String
  phone_number : Option String
  referral_code : String
  referred_by_id : Option Nat
  created_at : Nat
  updated_at : Nat
deriving DecidableEq, Repr

/-- Model of `authResponseSchema` of `schema.ts`. -/
structure AuthResponse where
  user : AuthUser
  token : String
deriving DecidableEq, Repr

/-- Model of `login` (`handlers/auth.ts` lines 165-206).  `verify` abstracts
`verifyPassword(password, stored_hash)` (pbkdf2) and `genToken` abstracts
`generateToken(userId)`; both are pure in the source and only evaluated on
the paths shown.  Both failure paths throw the same
`Error('Invalid email or password')`. -/
def login (verify : String → String → Bool) (genToken : Nat → String)
    (db : DB) (input : LoginInput) : Except String AuthResponse :=
  match db.users.find? (fun u => u.email == input.email) with
  | none => .error "Invalid email or password"
  | some user =>
    if verify input.password user.password_hash then
      .ok { user := { id := user.id
                      email := user.email
                      full_name := user.full_name
                      phone_number := user.phone_number
                      referral_code := user.referral_code
                      referred_by_id := user.referred_by_id
                      created_at := user.created_at
                      updated_at := user.updated_at }
            token := genToken user.id }
    else .error "Invalid email or password"

/-! ## Concrete fixtures

A small store used to instantiate the theorems: a referrer, a buyer referred
by them, one fixed-denomination product and one range-denominated product. -/

/-- A user with no referrer. -/
def sampleReferrer : UserRow :=
  { id := 1, email := "referrer@test.com", password_hash := "h1"
    full_name := "Referrer User", phone_number := none
    referral_code := "REF001", referred_by_id := none
    created_at := 0, updated_at := 0 }

/-- A user referred by `sampleReferrer`. -/
def sampleBuyer : UserRow :=
  { id := 2, email := "user@test.com", password_hash := "h2"
    full_name := "Test User", phone_number := none
    referral_code := "REF002", referred_by_id := some 1
    created_at := 0, updated_at := 0 }

/-- An active fixed-denomination product priced 5500. -/
def fixedProduct : ProductRow :=
  { id := 10, sku := "TELKOMSEL_5000", name := "Telkomsel 5.000"
    description := none, category := .mobile_credit
    price := 5500, base_price := 5000, provider := "DIGIFLAZZ"
    is_active := true, min_amount := none, max_amount := none
    denomination_type := .fixed, image_url := none
    created_at := 0, updated_at := 0 }

/-- An active range-denominated product, bounds 5000-50000, priced 10000. -/
def rangeProduct : ProductRow :=
  { id := 11, sku := "PLN_RANGE", name := "PLN Token"
    description := none, category := .pln_token
    price := 10000, base_price := 9000, provider := "DIGIFLAZZ"
    is_active := true, min_amount := some 5000, max_amount := some 50000
    denomination_type := .range, image_url := none
    created_at := 0, updated_at := 0 }

/-- The base store: the two users, the two products, no transactions yet. -/
def sampleDB : DB :=
  { users := [sampleReferrer, sampleBuyer]
    products := [fixedProduct, rangeProduct]
    transactions := [], referrals := []
    nextTransactionPk := 1, nextReferralPk := 1 }

/-- The transaction created by `createTransaction "TXN_A"` for the buyer on
the fixed product with `amount` omitted. -/
def txnA : TransactionRow :=
  { id := 1, user_id := 2, product_id := 10, transaction_id := "TXN_A"
    external_transaction_id := none, amount := 5500, price := 5500
    status := .pending, customer_phone := none, customer_id := none
    customer_name := none, notes := none, digiflazz_response := none
    created_at := 0, updated_at := 0 }

/-- The store `sampleDB` after creating `txnA`. -/
def dbAfterCreate : DB :=
  { sampleDB with transactions := [txnA], nextTransactionPk := 2 }

/-- A provider callback delivering `success` for `txnA`. -/
def successUpdate : UpdateTransactionStatusInput :=
  { transaction_id := "TXN_A", status := .success
    external_transaction_id := none, digiflazz_response := none }

/-! ## Claims -/

/-- Claim **C8.** Any provider response matching neither the success sentinel
(`Sukses` with rc `00`) nor a pending sentinel (`Pending`/`Process` status,
`PROCESS` message), and whose response code is not `00`, is classified as
failed by `isDigiflazzFailed`. -/
theorem c8_unknown_nonpending_response_is_failed (r : DigiflazzOrderResponse)
    (hsuk : ¬(r.data.status = "Sukses" ∧ r.data.rc = "00"))
    (hpend : r.data.status ≠ "Pending")
    (hproc : r.data.status ≠ "Process")
    (hmsg : r.data.message ≠ "PROCESS")
    (hrc : r.data.rc ≠ "00") :
    isDigiflazzFailed r = true := by
  have hlast : (r.data.rc != "00" && r.data.status != "Pending") = true := by
    simp [bne_iff_ne, hrc, hpend]
  simp [isDigiflazzFailed, hlast]

/-- Witness for C8: a response with status `Habis`, message `SALDO`, rc `42`
is classified as failed. -/
theorem c8_witness :
    ¬(("Habis" : String) = "Sukses" ∧ ("42" : String) = "00") ∧
    isDigiflazzFailed
      { data := { ref_id := "R1", customer_no := "0812", buyer_sku_code := "SKU"
                  message := "SALDO", status := "Habis", rc := "42"
                  buyer_last_saldo := 0, price := 5275, tele := "t", wa := "w"
                  serial_number := none } } = true :=
  ⟨by decide,
   c8_unknown_nonpending_response_is_failed _
     (by decide) (by decide) (by decide) (by decide) (by decide)⟩

/-- Claim **C9.** Both login failure modes — unknown email, and known email with a
password the verifier rejects — produce the identical generic
`Invalid email or password` error, so the caller cannot distinguish them. -/
theorem c9_login_failures_indistinguishable
    (verify : String → String → Bool) (genToken : Nat → String) (db : DB)
    (in1 in2 : LoginInput) (u : UserRow)
    (h1 : ∀ v ∈ db.users, v.email ≠ in1.email)
    (h2 : db.users.find? (fun v => v.email == in2.email) = some u)
    (h3 : verify in2.password u.password_hash = false) :
    login verify genToken db in1 = .error "Invalid email or password" ∧
    login verify genToken db in2 = .error "Invalid email or password" ∧
    login verify genToken db in1 = login verify genToken db in2 := by
  have hfind : db.users.find? (fun v => v.email == in1.email) = none := by
    rw [List.find?_eq_none]
    intro v hv
    simpa using h1 v hv
  refine ⟨by simp [login, hfind], by simp [login, h2, h3], ?_⟩
  simp [login, hfind, h2, h3]

/-- Witness for C9: with a verifier that rejects everything, logging in with
an unknown email and with `sampleReferrer`'s email both yield the same
generic error. -/
theorem c9_witness :
    login (fun _ _ => false) (fun _ => "tok") sampleDB
        { email := "nobody@test.com", password := "pw" } =
      .error "Invalid email or password" ∧
    login (fun _ _ => false) (fun _ => "tok") sampleDB
        { email := "referrer@test.com", password := "wrong" } =
      .error "Invalid email or password" ∧
    login (fun _ _ => false) (fun _ => "tok") sampleDB
        { email := "nobody@test.com", password := "pw" } =
      login (fun _ _ => false) (fun _ => "tok") sampleDB
        { email := "referrer@test.com", password := "wrong" } :=
  c9_login_failures_indistinguishable (fun _ _ => false) (fun _ => "tok")
    sampleDB _ _ sampleReferrer (by decide) (by decide) rfl

/-- Claim **C10.** An explicitly supplied `amount = 0` is treated exactly as an
omitted amount: `input.amount || price` is falsy on `0`, so the two calls
are equal as functions of the store — in particular the zero is silently
replaced by the product's price instead of being checked against
`min_amount`. -/
theorem c10_zero_amount_treated_as_omitted (genId : String) (now : Nat)
    (input : CreateTransactionInput) (db : DB) :
    createTransaction genId now { input with amount := some 0 } db =
      createTransaction genId now { input with amount := none } db := by
  simp [createTransaction]

/-- Claim **C5.** A status update whose `transaction_id` matches no stored
transaction returns `null` and leaves the store unchanged. -/
theorem c5_unknown_transaction_returns_null (fault : Bool) (now : Nat)
    (input : UpdateTransactionStatusInput) (db : DB)
    (h : ∀ t ∈ db.transactions, t.transaction_id ≠ input.transaction_id) :
    updateTransactionStatus fault now input db = (none, db) := by
  have hfilter :
      db.transactions.filter (fun t => t.transaction_id == input.transaction_id)
        = [] := by
    rw [List.filter_eq_nil_iff]
    intro t ht
    simpa using h t ht
  simp [updateTransactionStatus, hfilter]

/-- Witness for C5: delivering a callback for `TXN_ZZZ`, which `dbAfterCreate`
does not contain, returns `null` with the store untouched. -/
theorem c5_witness :
    updateTransactionStatus false 3
      { transaction_id := "TXN_ZZZ", status := .success
        external_transaction_id := none, digiflazz_response := none }
      dbAfterCreate = (none, dbAfterCreate) :=
  c5_unknown_transaction_returns_null false 3 _ dbAfterCreate (by decide)

/-- Claim **C1** (violated by the code).  From the base store, create a pending
transaction for the referred buyer and deliver `success` for its
`transaction_id` twice: the ledger ends up with **two** referral records for
that one transaction.  `processReferralCommission` inserts unconditionally —
it never checks for an existing record — and `referralsTable` has no unique
constraint on `transaction_id`, so nothing stops the second insert. -/
theorem c1_double_success_inserts_two_referral_records :
    createTransaction "TXN_A" 0
        { user_id := 2, product_id := 10, amount := none
          customer_phone := none, customer_id := none, customer_name := none }
        sampleDB = .ok (txnA, dbAfterCreate) ∧
    ((updateTransactionStatus false 2 successUpdate
        (updateTransactionStatus false 1 successUpdate dbAfterCreate).2).2.referrals.map
      (fun r => (r.transaction_id, r.commission_amount)))
      = [(1, 275), (1, 275)] := by
  refine ⟨rfl, ?_⟩
  norm_num [updateTransactionStatus, processReferralCommission, applyStatusUpdate,
    findUser, dbAfterCreate, sampleDB, txnA, successUpdate, calculateCommission,
    jsRound, Rat.floor, sampleReferrer, sampleBuyer]

/-- Claim **C3 counterexample.**  On the range product (`min_amount = 5000`,
`max_amount = 50000`, `price = 10000`), a supplied amount of `0` is strictly
below `min_amount`, yet `createTransaction` does not reject it: `0` is falsy
in `input.amount || price`, so the call succeeds with the amount silently
replaced by the price `10000`. -/
theorem c3_counterexample_zero_below_min_not_rejected :
    (0 : ℚ) < 5000 ∧
    (createTransaction "TXN_C" 0
        { user_id := 2, product_id := 11, amount := some 0
          customer_phone := none, customer_id := none, customer_name := none }
        sampleDB).toOption.map (fun x => x.1.amount) = some 10000 := by
  exact ⟨by decide, by decide⟩

/-- Claim **C3 (amended: for a supplied nonzero amount).**  For a range product
with both bounds set, an existing user, and an existing active product, a
supplied nonzero amount strictly below `min_amount` is rejected with the
below-minimum validation error carrying that bound, one strictly above
`max_amount` is rejected with the above-maximum error carrying that bound,
and any amount within the bounds yields a pending transaction with exactly
that amount, priced at the product's price. -/
theorem c3_range_bounds_enforced_for_nonzero_amount
    (genId : String) (now : Nat) (input : CreateTransactionInput) (db : DB)
    (p : ProductRow) (a mn mx : ℚ)
    (hu : (findUser db input.user_id).isSome = true)
    (hp : findProduct db input.product_id = some p)
    (hact : p.is_active = true)
    (hd : p.denomination_type = .range)
    (hmn : p.min_amount = some mn)
    (hmx : p.max_amount = some mx)
    (ha : input.amount = some a)
    (ha0 : a ≠ 0) :
    (a < mn → createTransaction genId now input db
        = .error (.amountBelowMin mn)) ∧
    (mn ≤ a → mx < a → createTransaction genId now input db
        = .error (.amountAboveMax mx)) ∧
    (mn ≤ a → a ≤ mx →
      (createTransaction genId now input db).toOption.map
          (fun x => (x.1.amount, x.1.price, x.1.status)) =
        some (a, p.price, .pending)) := by
  obtain ⟨u, hu'⟩ := Option.isSome_iff_exists.mp hu
  refine ⟨?_, ?_, ?_⟩
  · intro hlt
    simp [createTransaction, rangeViolation, hu', hp, hact, hd, hmn, hmx, ha,
      ha0, hlt]
  · intro hge hgt
    simp [createTransaction, rangeViolation, hu', hp, hact, hd, hmn, hmx, ha,
      ha0, not_lt.mpr hge, hgt]
  · intro hge hle
    simp [createTransaction, rangeViolation, Except.toOption, hu', hp, hact, hd,
      hmn, hmx, ha, ha0, not_lt.mpr hge, not_lt.mpr hle]

/-- Witness for C3 (amended), on the range product of `sampleDB`:
1000 is rejected as below the minimum, 70000 as above the maximum, and
25000 is accepted with amount 25000. -/
theorem c3_witness :
    (createTransaction "TXN_C" 0
        { user_id := 2, product_id := 11, amount := some 1000
          customer_phone := none, customer_id := none, customer_name := none }
        sampleDB = .error (.amountBelowMin 5000)) ∧
    (createTransaction "TXN_C" 0
        { user_id := 2, product_id := 11, amount := some 70000
          customer_phone := none, customer_id := none, customer_name := none }
        sampleDB = .error (.amountAboveMax 50000)) ∧
    ((createTransaction "TXN_C" 0
        { user_id := 2, product_id := 11, amount := some 25000
          customer_phone := none, customer_id := none, customer_name := none }
        sampleDB).toOption.map
        (fun x => (x.1.amount, x.1.price, x.1.status)) =
      some (25000, rangeProduct.price, .pending)) :=
  ⟨(c3_range_bounds_enforced_for_nonzero_amount "TXN_C" 0 _ sampleDB
      rangeProduct 1000 5000 50000 (by decide) (by decide) rfl rfl rfl rfl rfl
      (by decide)).1 (by decide),
   (c3_range_bounds_enforced_for_nonzero_amount "TXN_C" 0 _ sampleDB
      rangeProduct 70000 5000 50000 (by decide) (by decide) rfl rfl rfl rfl rfl
      (by decide)).2.1 (by decide) (by decide),
   (c3_range_bounds_enforced_for_nonzero_amount "TXN_C" 0 _ sampleDB
      rangeProduct 25000 5000 50000 (by decide) (by decide) rfl rfl rfl rfl rfl
      (by decide)).2.2 (by decide) (by decide)⟩

/-- Claim **C4.**  For a fixed-denomination product, an existing user, and an
omitted amount, `createTransaction` yields a pending transaction whose
`amount` and `price` both equal the product's current price. -/
theorem c4_fixed_product_defaults_amount_to_price
    (genId : String) (now : Nat) (input : CreateTransactionInput) (db : DB)
    (p : ProductRow)
    (hu : (findUser db input.user_id).isSome = true)
    (hp : findProduct db input.product_id = some p)
    (hact : p.is_active = true)
    (hd : p.denomination_type = .fixed)
    (ha : input.amount = none) :
    (createTransaction genId now input db).toOption.map
        (fun x => (x.1.amount, x.1.price, x.1.status)) =
      some (p.price, p.price, .pending) := by
  obtain ⟨u, hu'⟩ := Option.isSome_iff_exists.mp hu
  simp [createTransaction, Except.toOption, hu', hp, hact, hd, ha]

/-- Witness for C4: creating a transaction on the fixed 5500 product with
the amount omitted yields `amount = 5500`, `price = 5500`, status pending. -/
theorem c4_witness :
    (createTransaction "TXN_A" 7
        { user_id := 2, product_id := 10, amount := none
          customer_phone := none, customer_id := none, customer_name := none }
        sampleDB).toOption.map
        (fun x => (x.1.amount, x.1.price, x.1.status)) =
      some (fixedProduct.price, fixedProduct.price, .pending) :=
  c4_fixed_product_defaults_amount_to_price "TXN_A" 7 _ sampleDB fixedProduct
    (by decide) (by decide) rfl rfl rfl

/-- The range transaction used for the C2 counterexample: amount 7000 was
supplied, the charged price is the range product's price 10000. -/
def txnB : TransactionRow :=
  { id := 1, user_id := 2, product_id := 11, transaction_id := "TXN_B"
    external_transaction_id := none, amount := 7000, price := 10000
    status := .pending, customer_phone := none, customer_id := none
    customer_name := none, notes := none, digiflazz_response := none
    created_at := 0, updated_at := 0 }

/-- The store `sampleDB` after creating `txnB`. -/
def dbAfterCreateB : DB :=
  { sampleDB with transactions := [txnB], nextTransactionPk := 2 }

/-- A provider callback delivering `success` for `txnB`. -/
def successUpdateB : UpdateTransactionStatusInput :=
  { transaction_id := "TXN_B", status := .success
    external_transaction_id := none, digiflazz_response := none }

/-- Claim **C2 counterexample.**  `processReferralCommission` computes the
commission from the transaction's **amount**, not from the charged price:
for a range purchase of amount 7000 charged at the product price 10000, the
recorded commission is `round(7000 × 0.05) = 350`, whereas the claim's
`round(charged price × 0.05)` is `round(10000 × 0.05) = 500`. -/
theorem c2_counterexample_commission_uses_amount_not_price :
    createTransaction "TXN_B" 0
        { user_id := 2, product_id := 11, amount := some 7000
          customer_phone := none, customer_id := none, customer_name := none }
        sampleDB = .ok (txnB, dbAfterCreateB) ∧
    ((updateTransactionStatus false 1 successUpdateB dbAfterCreateB).2.referrals.map
      (fun r => r.commission_amount)) = [(350 : ℚ)] ∧
    (jsRound (txnB.price * (5 / 100)) : ℚ) = 500 ∧
    (350 : ℚ) ≠ 500 := by
  refine ⟨rfl, ?_, ?_, by norm_num⟩
  · norm_num [updateTransactionStatus, processReferralCommission,
      applyStatusUpdate, findUser, dbAfterCreateB, sampleDB, txnB,
      successUpdateB, calculateCommission, jsRound, Rat.floor,
      sampleReferrer, sampleBuyer]
  · norm_num [txnB, jsRound, Rat.floor]

/-- Claim **C2 (amended: commission is computed from the transaction's amount).**
On a `success` update that matched a stored transaction: if the buyer has no
referrer the ledger is unchanged (and no error is raised — the operation
still returns the updated row), and if the buyer has a referrer exactly one
referral record is appended, with `commission_amount = round(amount × 0.05)`
computed from the transaction's amount and `is_paid = false`. -/
theorem c2_commission_settlement_on_success
    (now : Nat) (input : UpdateTransactionStatusInput) (db : DB)
    (t : TransactionRow) (rest : List TransactionRow)
    (hs : input.status = .success)
    (hfilter : db.transactions.filter
        (fun r => r.transaction_id == input.transaction_id) = t :: rest) :
    ((updateTransactionStatus false now input db).1
        = some (applyStatusUpdate input now t)) ∧
    (∀ u, findUser db t.user_id = some u → u.referred_by_id = none →
        (updateTransactionStatus false now input db).2.referrals
          = db.referrals) ∧
    (∀ u rid, findUser db t.user_id = some u → u.referred_by_id = some rid →
        rid ≠ 0 →
        (updateTransactionStatus false now input db).2.referrals
          = db.referrals ++
            [{ id := db.nextReferralPk
               referrer_id := rid
               referred_id := t.user_id
               commission_amount := (jsRound (t.amount * (5 / 100)) : ℚ)
               transaction_id := t.id
               is_paid := false
               created_at := now }]) := by
  refine ⟨?_, ?_, ?_⟩
  · simp only [updateTransactionStatus, hfilter, List.map_cons]
  · intro u hu hnone
    simp only [updateTransactionStatus, hfilter, List.map_cons, hs, if_pos]
    simp only [processReferralCommission, applyStatusUpdate, findUser] at *
    simp [hu, hnone]
  · intro u rid hu hrid hrid0
    simp only [updateTransactionStatus, hfilter, List.map_cons, hs, if_pos]
    simp only [processReferralCommission, applyStatusUpdate, findUser,
      calculateCommission] at *
    simp [hu, hrid, hrid0]

/-- Witness for C2 (amended): the success callback for `txnA` (buyer
referred by user 1, amount 5500) appends exactly one unpaid referral record
with commission `round(5500 × 0.05) = 275`. -/
theorem c2_witness :
    (updateTransactionStatus false 1 successUpdate dbAfterCreate).2.referrals
      = [{ id := 1, referrer_id := 1, referred_id := 2
           commission_amount := 275, transaction_id := 1
           is_paid := false, created_at := 1 }] := by
  have h := (c2_commission_settlement_on_success 1 successUpdate dbAfterCreate
      txnA [] rfl rfl).2.2 sampleBuyer 1 rfl rfl (by decide)
  rw [h]
  norm_num [dbAfterCreate, sampleDB, txnA, jsRound, Rat.floor]

/-- With the referral insert throwing (`fault = true`), every branch of
`processReferralCommission` leaves the store untouched: the `catch` block
swallows the error. -/
theorem processReferralCommission_fault (now transactionPk userId : Nat)
    (amount : ℚ) (db : DB) :
    processReferralCommission true now transactionPk userId amount db = db := by
  unfold processReferralCommission
  rcases findUser db userId with _ | u
  · rfl
  · dsimp only
    rcases u.referred_by_id with _ | rid
    · rfl
    · dsimp only
      by_cases h0 : rid = 0 <;> simp [h0]

/-- Claim **C6.**  If the referral insert throws during a `success` update that
matched a stored transaction, the update itself does not fail or roll back:
the matching rows are still rewritten with the new status, external id and
payload, the updated row is still returned, and only the referral ledger is
left untouched. -/
theorem c6_commission_failure_does_not_block_status_update
    (now : Nat) (input : UpdateTransactionStatusInput) (db : DB)
    (t : TransactionRow) (rest : List TransactionRow)
    (hs : input.status = .success)
    (hfilter : db.transactions.filter
        (fun r => r.transaction_id == input.transaction_id) = t :: rest) :
    updateTransactionStatus true now input db
      = (some (applyStatusUpdate input now t),
         { db with transactions := db.transactions.map (fun r =>
             if r.transaction_id == input.transaction_id then
               applyStatusUpdate input now r
             else r) }) ∧
    (applyStatusUpdate input now t).status = input.status ∧
    (applyStatusUpdate input now t).external_transaction_id
      = jsStringOrNull input.external_transaction_id ∧
    (applyStatusUpdate input now t).digiflazz_response
      = input.digiflazz_response ∧
    (updateTransactionStatus true now input db).2.referrals = db.referrals := by
  have hmain : updateTransactionStatus true now input db
      = (some (applyStatusUpdate input now t),
         { db with transactions := db.transactions.map (fun r =>
             if r.transaction_id == input.transaction_id then
               applyStatusUpdate input now r
             else r) }) := by
    simp only [updateTransactionStatus, hfilter, List.map_cons, hs, if_pos,
      processReferralCommission_fault]
  refine ⟨hmain, by simp [applyStatusUpdate], by simp [applyStatusUpdate],
    by simp [applyStatusUpdate], ?_⟩
  rw [hmain]

/-- Witness for C6: delivering `success` for `txnA` with a failing referral
insert still persists the status change and returns the row, and the
referral ledger stays empty. -/
theorem c6_witness :
    updateTransactionStatus true 1 successUpdate dbAfterCreate
      = (some (applyStatusUpdate successUpdate 1 txnA),
         { dbAfterCreate with
             transactions := dbAfterCreate.transactions.map (fun r =>
               if r.transaction_id == successUpdate.transaction_id then
                 applyStatusUpdate successUpdate 1 r
               else r) }) ∧
    (applyStatusUpdate successUpdate 1 txnA).status = TransactionStatus.success ∧
    (updateTransactionStatus true 1 successUpdate dbAfterCreate).2.referrals
      = [] :=
  ⟨(c6_commission_failure_does_not_block_status_update 1 successUpdate
      dbAfterCreate txnA [] rfl rfl).1,
   (c6_commission_failure_does_not_block_status_update 1 successUpdate
      dbAfterCreate txnA [] rfl rfl).2.1,
   (c6_commission_failure_does_not_block_status_update 1 successUpdate
      dbAfterCreate txnA [] rfl rfl).2.2.2.2⟩

/-- Claim **C7.**  `getUserReferrals` statistics are over successful transactions
only: prepending any non-`success` transaction to the store changes nothing
in the result, and every user referred by `userId` — including one with no
transactions at all — contributes an entry whose count and spend range over
exactly their successful transactions. -/
theorem c7_referral_stats_count_only_successful_transactions
    (db : DB) (uid : Nat) (tx : TransactionRow) (u : UserRow)
    (hns : tx.status ≠ .success) :
    getUserReferrals { db with transactions := tx :: db.transactions } uid
      = getUserReferrals db uid ∧
    (u ∈ db.users → u.referred_by_id = some uid →
      ({ id := u.id, full_name := u.full_name, email := u.email
         joined_date := u.created_at
         total_transactions := (successfulTransactionsOf db u.id).length
         total_spent := ((successfulTransactionsOf db u.id).map
           (fun t => t.price)).sum } : ReferredUserStats)
        ∈ (getUserReferrals db uid).1) := by
  have hb : (tx.status == TransactionStatus.success) = false := by
    simp [hns]
  constructor
  · simp [getUserReferrals, successfulTransactionsOf, List.filter_cons, hb]
  · intro hu href
    refine List.mem_map.mpr ⟨u, List.mem_filter.mpr ⟨hu, ?_⟩, rfl⟩
    simp [href]

/-- Witness for C7: in `dbAfterCreate` (where `txnA` is still pending), the
buyer referred by user 1 appears with zero counts, and prepending the
pending `txnA` again changes nothing. -/
theorem c7_witness :
    (getUserReferrals
        { dbAfterCreate with
            transactions := txnA :: dbAfterCreate.transactions } 1
      = getUserReferrals dbAfterCreate 1) ∧
    ({ id := sampleBuyer.id, full_name := sampleBuyer.full_name
       email := sampleBuyer.email, joined_date := sampleBuyer.created_at
       total_transactions := (successfulTransactionsOf dbAfterCreate sampleBuyer.id).length
       total_spent := ((successfulTransactionsOf dbAfterCreate sampleBuyer.id).map
         (fun t => t.price)).sum } : ReferredUserStats)
      ∈ (getUserReferrals dbAfterCreate 1).1 ∧
    (successfulTransactionsOf dbAfterCreate sampleBuyer.id).length = 0 :=
  ⟨(c7_referral_stats_count_only_successful_transactions dbAfterCreate 1 txnA
      sampleBuyer (by decide)).1,
   (c7_referral_stats_count_only_successful_transactions dbAfterCreate 1 txnA
      sampleBuyer (by decide)).2 (by decide) rfl,
   by decide⟩
